import Mathlib

/-!
Shallow embedding of `coalib/bearlib/abstractions/Linter.py`: the `linter`
decorator machinery (`_prepare_options`, `_create_linter`), the generated
`LinterBase` class (`check_prerequisites`, `get_metadata`, `_create_config`,
`run`) and the regex output-format strategy.

Python machine-level details are modelled explicitly:
exceptions become `Except`, the filesystem becomes an explicit record of
existing paths, and the external collaborators (`shutil.which`,
`subprocess.check_call`, `run_shell_command`) become oracle parameters.
-/

/-- Python exceptions raised by the embedded code. -/
inductive PyErr where
  | valueError (msg : String)
  | typeError (msg : String)
deriving DecidableEq

/-- `repr` of a Python string without special characters: the string wrapped
in single quotes (`\x27` is the apostrophe). -/
def pyRepr (s : String) : String := "\x27" ++ s ++ "\x27"

/-- Code-point lexicographic order on character lists, the order Python's
`sorted` uses on strings. (Lean's built-in `String` order is not used because
its iterator-based implementation does not reduce in the kernel.) -/
def lexLeC : List Char → List Char → Bool
  | [], _ => true
  | _ :: _, [] => false
  | a :: as, b :: bs =>
    if a.toNat < b.toNat then true
    else if a.toNat = b.toNat then lexLeC as bs
    else false

/-- Code-point lexicographic order on strings. -/
def strLeB (a b : String) : Bool := lexLeC a.data b.data

/-- Insert a string into a list kept in `strLeB` order. -/
def sortedInsert (x : String) : List String → List String
  | [] => [x]
  | y :: ys => if strLeB x y then x :: y :: ys else y :: sortedInsert x ys

/-- Python's `sorted` on a list of strings (stable; code-point order). -/
def pySorted : List String → List String
  | [] => []
  | x :: xs => sortedInsert x (pySorted xs)

/-- An output-format class as seen by `_prepare_options`: its generator
yields the format name, then the set of option names it processed, then the
actual class handling result processing (the processing behaviour itself is
modelled separately). -/
structure FormatClass where
  fmtName : String
  processedOptions : List String
deriving DecidableEq

/-- The keyword-option dict handed to `_prepare_options` by `linter`.  The
eight fixed keys are always present (set at the end of `linter`); the extra
`**options` keys are listed in `kwargKeys`.  The key
`"prerequisite_check_fail_message"` is in the dict exactly when it appears in
`kwargKeys`, and its (string) value is then `prerequisite_check_fail_message`. -/
structure Options where
  executable : String
  output_format : Option String
  use_stdin : Bool
  use_stdout : Bool
  use_stderr : Bool
  config_suffix : String
  executable_check_fail_info : String
  prerequisite_check_command : List String
  kwargKeys : List String
  prerequisite_check_fail_message : Option String
deriving DecidableEq

/-- The names of the fixed options: `allowed_options` as initialised at the
top of `_prepare_options`, which are also the keys `linter` always sets. -/
def fixedAllowedOptions : List String :=
  ["executable", "output_format", "use_stdin", "use_stdout", "use_stderr",
   "config_suffix", "executable_check_fail_info", "prerequisite_check_command"]

/-- `options.keys()`: the fixed keys plus the extra keyword keys. -/
def Options.keys (o : Options) : List String := fixedAllowedOptions ++ o.kwargKeys

/-- The in-place update `_prepare_options` performs for the prerequisite
check: when a `prerequisite_check_command` is given and no
`prerequisite_check_fail_message` was supplied, the default message is
stored into the dict.  (The `assert_right_type` call on a supplied message
always succeeds in this model because the message field is typed `String`.) -/
def prereqPrepared (o : Options) : Options :=
  if o.prerequisite_check_command ≠ [] then
    if o.kwargKeys.contains "prerequisite_check_fail_message" then o
    else { o with
           prerequisite_check_fail_message := some "Prerequisite check failed.",
           kwargKeys := o.kwargKeys ++ ["prerequisite_check_fail_message"] }
  else o

/-- The final `allowed_options` set of `_prepare_options`: the fixed set,
plus the fail-message key when a prerequisite command is given, plus the
option names processed by the selected format class (if any). -/
def allowedOptionsOf (formats : List FormatClass) (o : Options) : List String :=
  fixedAllowedOptions
    ++ (if o.prerequisite_check_command ≠ [] then
          ["prerequisite_check_fail_message"] else [])
    ++ (match o.output_format with
        | none => []
        | some fmt =>
          match formats.find? (fun fc => fc.fmtName = fmt) with
          | none => []
          | some fc => fc.processedOptions)

/-- `options.keys() - allowed_options`, as a duplicate-free list: the
superfluous option names `_prepare_options` rejects. -/
def superfluousOptionsOf (formats : List FormatClass) (o : Options) : List String :=
  (((prereqPrepared o).keys).filter
    (fun k => !(allowedOptionsOf formats o).contains k)).dedup

/-- The combined error message for superfluous options: every offending
name, `repr`-quoted, sorted, joined into one string. -/
def superfluousMsg (superfluous : List String) : String :=
  "Invalid keyword arguments provided: " ++
    String.intercalate ", " ((pySorted superfluous).map pyRepr)

/-- `_prepare_options`: validates the option dict in order — stream flags
first, then the prerequisite-check message handling, then resolution of
`output_format` against the registered format classes, then the superfluous
option check — returning the updated dict together with the selected format
class (`none` when no output format was requested). -/
def _prepare_options (formats : List FormatClass) (o : Options) :
    Except PyErr (Options × Option FormatClass) :=
  if !o.use_stdout && !o.use_stderr then
    .error (.valueError "No output streams provided at all.")
  else
    let o1 := prereqPrepared o
    let fcLookup : Except PyErr (Option FormatClass) :=
      match o.output_format with
      | none => .ok none
      | some fmt =>
        match formats.find? (fun fc => fc.fmtName = fmt) with
        | none => .error (.valueError "Invalid `output_format` specified.")
        | some fc => .ok (some fc)
    match fcLookup with
    | .error e => .error e
    | .ok fcOpt =>
      let superfluous := superfluousOptionsOf formats o
      if superfluous ≠ [] then .error (.valueError (superfluousMsg superfluous))
      else .ok (o1, fcOpt)

/-- Modelled from the spec: the option names consumed by the two format
classes registered in `_format_classes`.  The module
`coalib.bearlib.abstractions.linterformats` defining
`create_regex_format_class` and `create_corrected_format_class` is not part
of this repository snapshot; the names come from the spec (§4.4, §4.5) and
the `linter` docstring (`output_regex`, `severity_map`, `result_message`;
`diff_severity`, `diff_distance`, `result_message`). -/
def regexFormatClass : FormatClass :=
  { fmtName := "regex",
    processedOptions := ["output_regex", "severity_map", "result_message"] }

/-- Modelled from the spec: the corrected-output format class (see
`regexFormatClass`). -/
def correctedFormatClass : FormatClass :=
  { fmtName := "corrected",
    processedOptions := ["diff_severity", "diff_distance", "result_message"] }

/-- The registered format classes (`_format_classes` in the source). -/
def _format_classes : List FormatClass := [regexFormatClass, correctedFormatClass]

/-- The user class wrapped by the `linter` decorator, as far as the
declaration-time checks observe it: its name, whether it has a
`process_output` attribute, and whether that attribute is callable. -/
structure WrappedClass where
  className : String
  hasProcessOutput : Bool
  processOutputCallable : Bool
deriving DecidableEq

/-- The declaration-time result-stage check in the `LinterBase` class body of
`_create_linter`: with no output format, the wrapped class must provide a
callable `process_output`; with an output format, the wrapped class must not
define `process_output` at all.  (`callable(getattr(klass, "process_output",
None))` is `hasProcessOutput && processOutputCallable`; `hasattr` is
`hasProcessOutput`.) -/
def _create_linter_check (klass : WrappedClass) (o : Options) : Except PyErr Unit :=
  match o.output_format with
  | none =>
    if !(klass.hasProcessOutput && klass.processOutputCallable) then
      .error (.valueError ("`process_output` not provided by given class " ++
        pyRepr klass.className ++ "."))
    else .ok ()
  | some fmt =>
    if klass.hasProcessOutput then
      .error (.valueError ("Found `process_output` already defined by class " ++
        pyRepr klass.className ++ ", but " ++ pyRepr fmt ++
        " output-format is specified."))
    else .ok ()

/-- The result of `check_prerequisites`: Python's `True`, or a string with
more information. -/
inductive PrereqResult where
  | operational
  | failMsg (s : String)
deriving DecidableEq

/-- `LinterBase.check_prerequisites`.  The external collaborators are passed
as oracles: `which` is the result of `shutil.which(executable)` and
`checkCallOk` tells whether `subprocess.check_call(prerequisite_check_command)`
succeeded (`false` covers both a non-zero exit status and an `OSError`).
The function is total: every outcome is a returned value, no exception
escapes.  (`_prepare_options` guarantees the fail-message key exists whenever
the command is non-empty, so the `getD` default is never consulted on
prepared options.) -/
def check_prerequisites (o : Options) (which : Option String)
    (checkCallOk : Bool) : PrereqResult :=
  match which with
  | none =>
    .failMsg (pyRepr o.executable ++ " is not installed." ++
      (if o.executable_check_fail_info ≠ "" then
        " " ++ o.executable_check_fail_info else ""))
  | some _ =>
    if o.prerequisite_check_command ≠ [] then
      if checkCallOk then .operational
      else .failMsg (o.prerequisite_check_fail_message.getD "")
    else .operational

/-- Modelled from the spec: `coalib.settings.FunctionMetadata` is not part of
this repository snapshot; only its call sites are.  A metadata value is an
ordered list of parameter descriptors — here a `(name, documentation)` pair
stands for the descriptor, so that a merge resolving "the parameter's winning
declaration and its documentation text" is observable — plus the `omit` set
and the description string. -/
structure FunctionMetadata where
  params : List (String × String)
  omitted : List String
  desc : String

/-- The parameter descriptors a metadata value actually exposes: its
parameters minus the omitted names. -/
def FunctionMetadata.effectiveParams (m : FunctionMetadata) :
    List (String × String) :=
  m.params.filter (fun p => !m.omitted.contains p.1)

/-- Look up the exposed descriptor for a parameter name. -/
def FunctionMetadata.lookupParam (m : FunctionMetadata) (n : String) :
    Option String :=
  (m.effectiveParams.find? (fun p => p.1 = n)).map Prod.snd

/-- Modelled from the spec: merging two metadata values, the second one's
declarations winning on duplicate names (`FunctionMetadata.merge` gives later
arguments precedence: the spec resolves duplicates "argument-construction
wins, then config-generation, then result-processing" while `get_metadata`
passes the three stages in the opposite order). -/
def FunctionMetadata.mergePair (a b : FunctionMetadata) : FunctionMetadata :=
  { params := a.effectiveParams.filter (fun p => (b.lookupParam p.1).isNone)
      ++ b.effectiveParams,
    omitted := [],
    desc := b.desc }

/-- Modelled from the spec: `FunctionMetadata.merge` over a list of metadata
values, later entries taking precedence. -/
def FunctionMetadata.merge (ms : List FunctionMetadata) : FunctionMetadata :=
  ms.foldl FunctionMetadata.mergePair { params := [], omitted := [], desc := "" }

/-- `LinterBase.get_metadata`: merge the metadata of the three stages in the
source's order — `process_output` first, then `generate_config`, then
`create_arguments` — and replace the description with the class docstring
plus the tool note. -/
def get_metadata (docstring executable : String)
    (process_output_md generate_config_md create_arguments_md :
      FunctionMetadata) : FunctionMetadata :=
  let merged := FunctionMetadata.merge
    [process_output_md, generate_config_md, create_arguments_md]
  { merged with desc := (docstring ++ "\n\nThis bear uses the " ++
      pyRepr executable ++ " tool.") }

/-- The value returned by `create_arguments`, as `run` observes it: either
`tuple(args)` succeeds (an iterable of argument strings) or it raises
`TypeError` (`nonIterable` carries the `repr` of the value, used in the
logged error message). -/
inductive CAResult where
  | iterable (args : List String)
  | nonIterable (reprStr : String)
deriving DecidableEq

/-- The process output after reduction: a tuple of the selected streams, or
a single string when exactly one stream is selected. -/
inductive PyOutput where
  | tup (xs : List String)
  | single (s : String)
deriving DecidableEq

/-- Lines 281–284 of the source: `tuple(compress((stdout, stderr),
(use_stdout, use_stderr)))`, unwrapped to the bare string when the tuple has
exactly one element. -/
def reduceOutput (stdout stderr : String) (useOut useErr : Bool) : PyOutput :=
  match (if useOut then [stdout] else []) ++ (if useErr then [stderr] else []) with
  | [x] => .single x
  | xs => .tup xs

/-- The filesystem as the pipeline observes it: the list of existing paths,
plus a counter from which `make_temp` derives fresh names. -/
structure FS where
  files : List String
  counter : Nat
deriving DecidableEq

/-- The path `make_temp(suffix=...)` creates for counter value `n`. -/
def tempName (n : Nat) (suffix : String) : String :=
  "/tmp/coala_" ++ toString n ++ suffix

/-- The three user-defined stages of a linter, as `run` calls them.  The
keyword-argument routing (`FunctionMetadata.filter_parameters`, external to
this repository) is not modelled: each stage receives its fixed positional
parameters.  `process_output` may raise, covering every downstream failure
of the pipeline. -/
structure LinterStages (ρ : Type) where
  generate_config : String → List String → Option String
  create_arguments : String → List String → Option String → CAResult
  process_output : PyOutput → String → List String → Except PyErr ρ

/-- Observable events of one `run` call: temp files created (with the
content written to them), the config-file path passed to
`create_arguments`, the shell invocations (argument vector and stdin), the
reduced outputs handed to `process_output`, and `self.err` log messages. -/
structure RunTrace where
  created : List (String × String)
  configPassed : List (Option String)
  invocations : List (List String × Option String)
  outputsPassed : List PyOutput
  errLog : List String
deriving DecidableEq

/-- The body of `LinterBase.run` inside the `_create_config` context
manager: build the argument tuple (logging and returning `None` on a
non-iterable value), invoke the tool via the `shell` oracle
(`run_shell_command`), reduce the captured output to the selected streams
and hand it to `process_output`. -/
def runBody {ρ : Type} (o : Options) (L : LinterStages ρ)
    (shell : List String → Option String → String × String)
    (filename : String) (file : List String) (config_file : Option String) :
    Except PyErr (Option ρ) × RunTrace :=
  match L.create_arguments filename file config_file with
  | .nonIterable r =>
    (.ok none,
     { created := [], configPassed := [config_file], invocations := [],
       outputsPassed := [],
       errLog := ["The given arguments " ++ r ++ " are not iterable."] })
  | .iterable args =>
    let arguments := o.executable :: args
    let stdinData := if o.use_stdin then some (String.join file) else none
    let captured := shell arguments stdinData
    let red := reduceOutput captured.1 captured.2 o.use_stdout o.use_stderr
    ((L.process_output red filename file).map some,
     { created := [], configPassed := [config_file],
       invocations := [(arguments, stdinData)], outputsPassed := [red],
       errLog := [] })

/-- `LinterBase.run` with the `_create_config` context manager made
explicit: when `generate_config` returns content, a temp file with the
configured suffix is created and written before the body runs and erased
after the body finishes — also when the body's result is an exception —
exactly as the `with make_temp(...)` block guarantees. -/
def runLinter {ρ : Type} (o : Options) (L : LinterStages ρ)
    (shell : List String → Option String → String × String)
    (filename : String) (file : List String) (fs : FS) :
    (Except PyErr (Option ρ) × RunTrace) × FS :=
  match L.generate_config filename file with
  | none => (runBody o L shell filename file none, fs)
  | some content =>
    let path := tempName fs.counter o.config_suffix
    let fs1 : FS := { files := path :: fs.files, counter := fs.counter + 1 }
    let body := runBody o L shell filename file (some path)
    ((body.1, { body.2 with created := [(path, content)] }),
     { fs1 with files := fs1.files.erase path })

/-- The config-file path `run` passes to `create_arguments`: `none` when
`generate_config` produced no content, otherwise the temp-file path. -/
def configPathFor {ρ : Type} (L : LinterStages ρ) (o : Options)
    (filename : String) (file : List String) (fs : FS) : Option String :=
  match L.generate_config filename file with
  | none => none
  | some _ => some (tempName fs.counter o.config_suffix)

/-- `coalib.results.RESULT_SEVERITY`: the severity enum for issues. -/
inductive RESULT_SEVERITY where
  | MAJOR
  | NORMAL
  | MINOR
deriving DecidableEq

/-- ASCII lower-casing of one character (Python's case-insensitive severity
lookup only meets ASCII severity labels). -/
def charLower (c : Char) : Char :=
  if 65 ≤ c.toNat ∧ c.toNat ≤ 90 then Char.ofNat (c.toNat + 32) else c

/-- ASCII lower-casing of a string. -/
def strLower (s : String) : String := String.mk (s.data.map charLower)

/-- One regex match, by its named capture groups: a group that did not
participate in the match is `none`. -/
structure RegexMatch where
  line : Option String := none
  column : Option String := none
  end_line : Option String := none
  end_column : Option String := none
  severity : Option String := none
  message : Option String := none
  origin : Option String := none
  additional_info : Option String := none
deriving DecidableEq

/-- One structured diagnostic produced by the regex strategy (the fields of
a `coalib` `Result` the strategy fills in). -/
structure Issue where
  origin : Option String := none
  message : Option String := none
  severity : Option RESULT_SEVERITY := none
  line : Option Nat := none
  column : Option Nat := none
  end_line : Option Nat := none
  end_column : Option Nat := none
  additional_info : Option String := none
deriving DecidableEq

/-- Modelled from the spec: the default severity map of the regex strategy —
"error" to MAJOR, "warning"/"warn" to NORMAL, "info" to MINOR. -/
def defaultSeverityMap : List (String × RESULT_SEVERITY) :=
  [("error", .MAJOR), ("warning", .NORMAL), ("warn", .NORMAL),
   ("info", .MINOR)]

/-- Case-insensitive lookup in a severity map. -/
def lookupSeverity (sevMap : List (String × RESULT_SEVERITY)) (s : String) :
    Option RESULT_SEVERITY :=
  (sevMap.find? (fun p => strLower p.1 = strLower s)).map Prod.snd

/-- `\d` of the example pattern. -/
def isDigitC (c : Char) : Bool := 48 ≤ c.toNat && c.toNat ≤ 57

/-- Python's `int()` on a captured group: defined on non-empty digit
strings.  (Lean's built-in `String.toNat?` is not used because its
iterator-based implementation does not reduce in the kernel.) -/
def pyInt? (s : String) : Option Nat :=
  if s.data ≠ [] ∧ s.data.all isDigitC then
    some (s.data.foldl (fun acc c => acc * 10 + (c.toNat - 48)) 0)
  else none

/-- A numeric capture group coerced to an integer: a non-numeric or absent
capture yields an absent value, not an error. -/
def coerceGroup (g : Option String) : Option Nat := g.bind pyInt?

/-- Modelled from the spec: build one Issue from one match of the regex
strategy (`linterformats` is not part of this repository snapshot).  The
numeric groups are coerced, the severity group is looked up
case-insensitively — an unknown severity label is an error — and a static
`result_message`, when configured, replaces the captured message group. -/
def matchToIssue (sevMap : List (String × RESULT_SEVERITY))
    (result_message : Option String) (m : RegexMatch) : Except PyErr Issue :=
  let msg := match result_message with
    | some t => some t
    | none => m.message
  match m.severity with
  | none =>
    .ok { origin := m.origin, message := msg, severity := none,
          line := coerceGroup m.line, column := coerceGroup m.column,
          end_line := coerceGroup m.end_line,
          end_column := coerceGroup m.end_column,
          additional_info := m.additional_info }
  | some s =>
    match lookupSeverity sevMap s with
    | none => .error (.valueError ("Invalid severity value " ++ pyRepr s))
    | some sev =>
      .ok { origin := m.origin, message := msg, severity := some sev,
            line := coerceGroup m.line, column := coerceGroup m.column,
            end_line := coerceGroup m.end_line,
            end_column := coerceGroup m.end_column,
            additional_info := m.additional_info }

/-- Modelled from the spec: the regex strategy's result processing — one
Issue per match, in match order; the first unknown severity label aborts
with the error. -/
def regexProcessOutput (sevMap : List (String × RESULT_SEVERITY))
    (result_message : Option String) :
    List RegexMatch → Except PyErr (List Issue)
  | [] => .ok []
  | m :: ms =>
    match matchToIssue sevMap result_message m,
          regexProcessOutput sevMap result_message ms with
    | .ok i, .ok is => .ok (i :: is)
    | .error e, _ => .error e
    | .ok _, .error e => .error e

/-- `\w` of the example pattern: ASCII letters, digits and underscore. -/
def isWordC (c : Char) : Bool :=
  (65 ≤ c.toNat && c.toNat ≤ 90) || (97 ≤ c.toNat && c.toNat ≤ 122) ||
    isDigitC c || c.toNat = 95

/-- A match attempt of the pattern
`(?P<line>\d+):(?P<severity>\w+): (?P<message>.+)` at the head of the
character list: greedy `\d+`, a colon, greedy `\w+`, a colon and a space,
then `.+` — at least one character, up to (excluding) the next newline.
Returns the match's groups and the characters after the match.  (The greedy
runs are exact here: the character after each run can never extend it, so
the regex engine never backtracks on this pattern.) -/
def matchAt (cs : List Char) : Option (RegexMatch × List Char) :=
  let p1 := cs.span isDigitC
  if p1.1 = [] then none
  else
    match p1.2 with
    | ':' :: r2 =>
      let p3 := r2.span isWordC
      if p3.1 = [] then none
      else
        match p3.2 with
        | ':' :: ' ' :: r4 =>
          let p5 := r4.span (fun c => c ≠ '\n')
          if p5.1 = [] then none
          else
            some ({ line := some (String.mk p1.1),
                    severity := some (String.mk p3.1),
                    message := some (String.mk p5.1) }, p5.2)
        | _ => none
    | _ => none

/-- The scan loop of `re.finditer`: at each position try a match; on success
emit it and continue right after the matched text (non-overlapping), on
failure advance one character.  The fuel starts at the text length, an upper
bound on the number of steps since every step consumes at least one
character. -/
def scanGo : Nat → List Char → List RegexMatch
  | 0, _ => []
  | _, [] => []
  | Nat.succ n, c :: cs =>
    match matchAt (c :: cs) with
    | some (m, rest) => m :: scanGo n rest
    | none => scanGo n cs

/-- All non-overlapping matches of the example pattern in the output text,
in left-to-right, top-to-bottom order. -/
def scanPattern (s : String) : List RegexMatch := scanGo s.data.length s.data

/-- Fixture: a well-formed option dict for a regex-format linter. -/
def fixtureOptions : Options :=
  { executable := "xlint", output_format := some "regex", use_stdin := false,
    use_stdout := true, use_stderr := false, config_suffix := ".conf",
    executable_check_fail_info := "", prerequisite_check_command := [],
    kwargKeys := ["output_regex"], prerequisite_check_fail_message := none }

/-- Fixture: stages whose `generate_config` produces content. -/
def fixtureStagesConfig : LinterStages Unit :=
  { generate_config := fun _ _ => some "<cfg>",
    create_arguments := fun _ _ _ => .iterable ["--lint"],
    process_output := fun _ _ _ => .ok () }

/-- Fixture: stages whose `create_arguments` returns a non-iterable value. -/
def fixtureStagesNonIter : LinterStages Unit :=
  { generate_config := fun _ _ => none,
    create_arguments := fun _ _ _ => .nonIterable "None",
    process_output := fun _ _ _ => .ok () }

/-- Fixture: a shell oracle producing empty output. -/
def fixtureShell : List String → Option String → String × String :=
  fun _ _ => ("", "")

/-- Fixture: an empty filesystem. -/
def fixtureFS : FS := { files := [], counter := 0 }

/-- Fixture: an option dict with two unknown extra options. -/
def oSuperfluous : Options :=
  { fixtureOptions with kwargKeys := ["zeta", "alpha", "output_regex"] }

/-- Fixture: an option dict with both stream flags off. -/
def oNoStreams : Options :=
  { fixtureOptions with use_stdout := false, use_stderr := false }

/-- Fixture: a fail message supplied without a prerequisite command. -/
def oPrereqMsgOnly : Options :=
  { fixtureOptions with
    kwargKeys := ["output_regex", "prerequisite_check_fail_message"],
    prerequisite_check_fail_message := some "custom" }

/-- Fixture: a prerequisite command supplied without a fail message. -/
def oPrereqCmdOnly : Options :=
  { fixtureOptions with prerequisite_check_command := ["xlint", "--version"] }

/-- Fixture: a prepared option dict with a prerequisite command and message. -/
def oPrereqFull : Options :=
  { fixtureOptions with
    prerequisite_check_command := ["xlint", "--version"],
    prerequisite_check_fail_message := some "tool broken" }

/-- Totality of the code-point order. -/
theorem lexLeC_total (as bs : List Char) :
    lexLeC as bs = true ∨ lexLeC bs as = true := by
  induction as generalizing bs with
  | nil => left; rfl
  | cons a as ih =>
    cases bs with
    | nil => right; rfl
    | cons b bs =>
      rcases Nat.lt_trichotomy a.toNat b.toNat with h | h | h
      · left; simp [lexLeC, h]
      · rcases ih bs with h2 | h2
        · left; simp [lexLeC, h, Nat.lt_irrefl, h2]
        · right; simp [lexLeC, h.symm, Nat.lt_irrefl, h2]
      · right; simp [lexLeC, h]

/-- Transitivity of the code-point order. -/
theorem lexLeC_trans (as bs cs : List Char) (h1 : lexLeC as bs = true)
    (h2 : lexLeC bs cs = true) : lexLeC as cs = true := by
  induction as generalizing bs cs with
  | nil => rfl
  | cons a as ih =>
    cases bs with
    | nil => simp [lexLeC] at h1
    | cons b bs =>
      cases cs with
      | nil => simp [lexLeC] at h2
      | cons c cs =>
        simp only [lexLeC] at h1 h2 ⊢
        split_ifs at h1 h2 ⊢ <;> try rfl
        all_goals first
          | exact ih bs cs h1 h2
          | (exfalso; omega)

/-- Totality of the string order. -/
theorem strLeB_total (a b : String) : strLeB a b = true ∨ strLeB b a = true :=
  lexLeC_total a.data b.data

/-- Transitivity of the string order. -/
theorem strLeB_trans (a b c : String) (h1 : strLeB a b = true)
    (h2 : strLeB b c = true) : strLeB a c = true :=
  lexLeC_trans a.data b.data c.data h1 h2

/-- Membership in an ordered insert. -/
theorem mem_sortedInsert (x b : String) (l : List String) :
    b ∈ sortedInsert x l ↔ b = x ∨ b ∈ l := by
  induction l with
  | nil => simp [sortedInsert]
  | cons y ys ih =>
    by_cases h : strLeB x y = true
    · simp [sortedInsert, h]
    · simp only [sortedInsert, h]
      simp [ih]
      tauto

/-- Sorting preserves membership. -/
theorem mem_pySorted (b : String) (l : List String) :
    b ∈ pySorted l ↔ b ∈ l := by
  induction l with
  | nil => simp [pySorted]
  | cons x xs ih => simp [pySorted, mem_sortedInsert, ih]

/-- Ordered insert preserves sortedness. -/
theorem pairwise_sortedInsert (x : String) (l : List String)
    (h : l.Pairwise (fun a b => strLeB a b = true)) :
    (sortedInsert x l).Pairwise (fun a b => strLeB a b = true) := by
  induction l with
  | nil => simp [sortedInsert]
  | cons y ys ih =>
    rcases List.pairwise_cons.mp h with ⟨hy, hys⟩
    unfold sortedInsert
    by_cases hxy : strLeB x y = true
    · rw [if_pos hxy]
      refine List.pairwise_cons.mpr ⟨?_, h⟩
      intro z hz
      rcases List.mem_cons.mp hz with rfl | hz
      · exact hxy
      · exact strLeB_trans x y z hxy (hy z hz)
    · rw [if_neg hxy]
      refine List.pairwise_cons.mpr ⟨?_, ih hys⟩
      intro z hz
      rcases (mem_sortedInsert x z ys).mp hz with hzx | hz
      · rw [hzx]
        rcases strLeB_total x y with h2 | h2
        · exact absurd h2 hxy
        · exact h2
      · exact hy z hz

/-- The result of `pySorted` is sorted. -/
theorem pairwise_pySorted (l : List String) :
    (pySorted l).Pairwise (fun a b => strLeB a b = true) := by
  induction l with
  | nil => simp [pySorted]
  | cons x xs ih => exact pairwise_sortedInsert x (pySorted xs) ih

/-- Filtering by a predicate implied by the search predicate does not
change the first hit. -/
theorem find?_filter_of_imp {α : Type} (p q : α → Bool) (l : List α)
    (h : ∀ x, p x = true → q x = true) :
    (l.filter q).find? p = l.find? p := by
  induction l with
  | nil => rfl
  | cons x xs ih =>
    by_cases hq : q x = true
    · rw [List.filter_cons_of_pos hq]
      cases hp : p x
      · rw [List.find?_cons_of_neg _ (by simp [hp]),
          List.find?_cons_of_neg _ (by simp [hp]), ih]
      · rw [List.find?_cons_of_pos _ hp, List.find?_cons_of_pos _ hp]
    · have hp : p x = false := by
        cases hpx : p x
        · rfl
        · exact absurd (h x hpx) hq
      rw [List.filter_cons_of_neg (by simp [hq]),
        List.find?_cons_of_neg _ (by simp [hp]), ih]

/-- A merged metadata value omits nothing. -/
theorem mergePair_effectiveParams (a b : FunctionMetadata) :
    (a.mergePair b).effectiveParams = (a.mergePair b).params := by
  unfold FunctionMetadata.effectiveParams FunctionMetadata.mergePair
  apply List.filter_eq_self.mpr
  intro p _
  simp

/-- Lookup in a binary merge: the second operand wins. -/
theorem mergePair_lookupParam (a b : FunctionMetadata) (n : String) :
    (a.mergePair b).lookupParam n =
      (b.lookupParam n).or (a.lookupParam n) := by
  unfold FunctionMetadata.lookupParam
  rw [mergePair_effectiveParams]
  show ((a.effectiveParams.filter (fun p => (b.lookupParam p.1).isNone)
      ++ b.effectiveParams).find? (fun p => p.1 = n)).map Prod.snd = _
  rw [List.find?_append]
  cases hbf : b.effectiveParams.find? (fun p => decide (p.1 = n)) with
  | some pr =>
    have hb : b.lookupParam n = some pr.2 := by
      unfold FunctionMetadata.lookupParam
      rw [hbf]
      rfl
    have h1 : (a.effectiveParams.filter
        (fun p => (b.lookupParam p.1).isNone)).find? (fun p => decide (p.1 = n)) = none := by
      apply List.find?_eq_none.mpr
      intro x hx hpx
      have hq := (List.mem_filter.mp hx).2
      have hx1 : x.1 = n := of_decide_eq_true hpx
      rw [hx1, hb] at hq
      simp at hq
    rw [h1]
    simp [Option.or]
  | none =>
    have hb : b.lookupParam n = none := by
      unfold FunctionMetadata.lookupParam
      rw [hbf]
      rfl
    have h2 : (a.effectiveParams.filter
        (fun p => (b.lookupParam p.1).isNone)).find? (fun p => decide (p.1 = n)) =
        a.effectiveParams.find? (fun p => decide (p.1 = n)) := by
      apply find?_filter_of_imp
      intro x hpx
      have hx1 : x.1 = n := of_decide_eq_true hpx
      rw [hx1, hb]
      rfl
    rw [h2]
    cases haf : a.effectiveParams.find? (fun p => decide (p.1 = n)) <;> simp [Option.or]

/-- C4: merging the three stages' parameter descriptor sets resolves a
parameter name declared by more than one stage by the fixed precedence order
argument-construction first, then config-generation, then result-processing —
for the winning declaration together with its documentation text (a
descriptor carries both). -/
theorem metadata_merge_precedence (d e : String) (po gc ca : FunctionMetadata)
    (n : String) :
    (get_metadata d e po gc ca).lookupParam n =
      ((ca.lookupParam n).or ((gc.lookupParam n).or (po.lookupParam n))) := by
  have h0 : (get_metadata d e po gc ca).lookupParam n =
      (FunctionMetadata.merge [po, gc, ca]).lookupParam n := rfl
  rw [h0]
  unfold FunctionMetadata.merge
  simp only [List.foldl]
  rw [mergePair_lookupParam, mergePair_lookupParam, mergePair_lookupParam]
  have hempty :
      FunctionMetadata.lookupParam { params := [], omitted := [], desc := "" } n
        = none := rfl
  rw [hempty, Option.or_none]

/-- The body of `run` creates no files. -/
theorem runBody_created {ρ : Type} (o : Options) (L : LinterStages ρ)
    (shell : List String → Option String → String × String)
    (filename : String) (file : List String) (cfg : Option String) :
    (runBody o L shell filename file cfg).2.created = [] := by
  unfold runBody
  cases L.create_arguments filename file cfg <;> simp

/-- The body of `run` passes exactly the config path it was handed to
`create_arguments`. -/
theorem runBody_configPassed {ρ : Type} (o : Options) (L : LinterStages ρ)
    (shell : List String → Option String → String × String)
    (filename : String) (file : List String) (cfg : Option String) :
    (runBody o L shell filename file cfg).2.configPassed = [cfg] := by
  unfold runBody
  cases L.create_arguments filename file cfg <;> simp

/-- C1: for every pipeline run, if `generate_config` returns no content then
no config file is materialized and `create_arguments` receives `none`; if it
returns content, a temporary file with the declared `config_suffix` is
created and written with that content, its path is handed to
`create_arguments`, and the file no longer exists after the run exits — on
every exit path, since the result (success, per-file failure or an exception
from a later stage) is arbitrary here. -/
theorem config_file_scoped_lifecycle {ρ : Type} (o : Options)
    (L : LinterStages ρ)
    (shell : List String → Option String → String × String)
    (filename : String) (file : List String) (fs : FS) :
    ((runLinter o L shell filename file fs).2.files = fs.files) ∧
    (L.generate_config filename file = none →
      (runLinter o L shell filename file fs).1.2.created = [] ∧
      (runLinter o L shell filename file fs).1.2.configPassed = [none]) ∧
    (∀ content, L.generate_config filename file = some content →
      (runLinter o L shell filename file fs).1.2.created =
        [(tempName fs.counter o.config_suffix, content)] ∧
      (runLinter o L shell filename file fs).1.2.configPassed =
        [some (tempName fs.counter o.config_suffix)] ∧
      (∃ stem, tempName fs.counter o.config_suffix = stem ++ o.config_suffix) ∧
      (tempName fs.counter o.config_suffix ∉ fs.files →
        tempName fs.counter o.config_suffix ∉
          (runLinter o L shell filename file fs).2.files)) := by
  cases hg : L.generate_config filename file with
  | none =>
    refine ⟨?_, ?_, ?_⟩
    · simp [runLinter, hg]
    · intro _
      simp [runLinter, hg, runBody_created, runBody_configPassed]
    · intro content hcontent
      exact absurd hcontent (by simp)
  | some c =>
    have hfiles : (runLinter o L shell filename file fs).2.files = fs.files := by
      simp [runLinter, hg, List.erase_cons_head]
    refine ⟨hfiles, ?_, ?_⟩
    · intro hnone
      exact absurd hnone (by simp)
    · intro content hcontent
      injection hcontent with hc
      subst hc
      refine ⟨?_, ?_, ⟨"/tmp/coala_" ++ toString fs.counter, rfl⟩, ?_⟩
      · simp [runLinter, hg, runBody_created]
      · simp [runLinter, hg, runBody_configPassed]
      · intro hnotin
        rw [hfiles]
        exact hnotin

/-- C3: when `create_arguments` returns a non-iterable value the run does
not raise — it returns `None` — the failure is logged as a per-file
diagnostic, the external tool is never invoked and no output reaches the
result-processing stage. -/
theorem noniterable_arguments_recoverable {ρ : Type} (o : Options)
    (L : LinterStages ρ)
    (shell : List String → Option String → String × String)
    (filename : String) (file : List String) (fs : FS) (r : String)
    (h : L.create_arguments filename file
        (configPathFor L o filename file fs) = .nonIterable r) :
    (runLinter o L shell filename file fs).1.1 = .ok none ∧
    (runLinter o L shell filename file fs).1.2.invocations = [] ∧
    (runLinter o L shell filename file fs).1.2.outputsPassed = [] ∧
    (runLinter o L shell filename file fs).1.2.errLog =
      ["The given arguments " ++ r ++ " are not iterable."] := by
  cases hg : L.generate_config filename file with
  | none =>
    unfold configPathFor at h
    rw [hg] at h
    simp [runLinter, hg, runBody, h]
  | some c =>
    unfold configPathFor at h
    rw [hg] at h
    simp [runLinter, hg, runBody, h]

/-- The body of `run` hands `process_output` exactly the reduction of each
invocation's captured output. -/
theorem runBody_outputs_map {ρ : Type} (o : Options) (L : LinterStages ρ)
    (shell : List String → Option String → String × String)
    (filename : String) (file : List String) (cfg : Option String) :
    (runBody o L shell filename file cfg).2.outputsPassed =
      (runBody o L shell filename file cfg).2.invocations.map
        (fun inv => reduceOutput (shell inv.1 inv.2).1 (shell inv.1 inv.2).2
          o.use_stdout o.use_stderr) := by
  unfold runBody
  cases L.create_arguments filename file cfg <;> simp

/-- C7: the captured output handed to the result-processing stage is
reduced to the active-stream subset — both streams selected gives the
(stdout, stderr) pair, exactly one selected gives that stream's single
string — and in every run the value passed to `process_output` is exactly
this reduction of the tool invocation's captured streams. -/
theorem output_stream_reduction :
    (∀ sout serr : String,
      reduceOutput sout serr true true = .tup [sout, serr] ∧
      reduceOutput sout serr true false = .single sout ∧
      reduceOutput sout serr false true = .single serr) ∧
    (∀ (ρ : Type) (o : Options) (L : LinterStages ρ)
      (shell : List String → Option String → String × String)
      (filename : String) (file : List String) (fs : FS),
      (runLinter o L shell filename file fs).1.2.outputsPassed =
        (runLinter o L shell filename file fs).1.2.invocations.map
          (fun inv => reduceOutput (shell inv.1 inv.2).1 (shell inv.1 inv.2).2
            o.use_stdout o.use_stderr)) := by
  constructor
  · intro sout serr
    exact ⟨rfl, rfl, rfl⟩
  · intro ρ o L shell filename file fs
    cases hg : L.generate_config filename file with
    | none => simpa [runLinter, hg] using runBody_outputs_map o L shell filename file none
    | some c => simpa [runLinter, hg] using runBody_outputs_map o L shell filename file (some (tempName fs.counter o.config_suffix))

/-- C2: exactly one of \x7bthe wrapped class supplies `process_output`,
`output_format` is non-None\x7d must hold at declaration time: a class
defining `process_output` with a non-None `output_format` fails, a class
without a callable `process_output` with `output_format` None fails, and the
check succeeds precisely when exactly one side holds. -/
theorem result_stage_exactly_one (k : WrappedClass) (o : Options) :
    (∀ fmt, o.output_format = some fmt → k.hasProcessOutput = true →
      _create_linter_check k o = .error (.valueError
        ("Found `process_output` already defined by class " ++
          pyRepr k.className ++ ", but " ++ pyRepr fmt ++
          " output-format is specified."))) ∧
    (o.output_format = none →
      (k.hasProcessOutput && k.processOutputCallable) = false →
      _create_linter_check k o = .error (.valueError
        ("`process_output` not provided by given class " ++
          pyRepr k.className ++ "."))) ∧
    (_create_linter_check k o = .ok () ↔
      ((o.output_format = none ∧ k.hasProcessOutput = true ∧
          k.processOutputCallable = true) ∨
        (o.output_format ≠ none ∧ k.hasProcessOutput = false))) := by
  obtain ⟨name, hpo, hcall⟩ := k
  cases hf : o.output_format <;> cases hpo <;> cases hcall <;>
    simp [_create_linter_check, hf]

/-- C5: `check_prerequisites` returns Missing (a descriptive string naming
the executable, with the not-found hint appended when configured) when the
executable lookup fails; when the executable is found and a prerequisite
command is configured, the command's outcome decides the result (operational
on success, the configured failure message otherwise); when no command is
configured, operational.  The function is total, so no exception escapes. -/
theorem check_prerequisites_cases (o : Options) (which : Option String)
    (callOk : Bool) :
    (which = none →
      check_prerequisites o which callOk = .failMsg
        (pyRepr o.executable ++ " is not installed." ++
          (if o.executable_check_fail_info ≠ "" then
            " " ++ o.executable_check_fail_info else ""))) ∧
    (∀ p m, which = some p → o.prerequisite_check_command ≠ [] →
      o.prerequisite_check_fail_message = some m →
      check_prerequisites o which callOk =
        (if callOk then .operational else .failMsg m)) ∧
    (∀ p, which = some p → o.prerequisite_check_command = [] →
      check_prerequisites o which callOk = .operational) := by
  refine ⟨?_, ?_, ?_⟩
  · intro hw
    subst hw
    rfl
  · intro p m hw hcmd hmsg
    subst hw
    simp [check_prerequisites, hcmd, hmsg]
  · intro p hw hcmd
    subst hw
    simp [check_prerequisites, hcmd]

/-- C8: an option dict with both `use_stdout` and `use_stderr` false fails
validation with the no-output-stream error, regardless of all other
options. -/
theorem no_output_stream_selected_error (formats : List FormatClass)
    (o : Options) (h1 : o.use_stdout = false) (h2 : o.use_stderr = false) :
    _prepare_options formats o =
      .error (.valueError "No output streams provided at all.") := by
  unfold _prepare_options
  rw [h1, h2]
  rfl

/-- The superfluous options are exactly the dict keys outside the allowed
set. -/
theorem superfluous_mem_iff (formats : List FormatClass) (o : Options)
    (k : String) :
    k ∈ superfluousOptionsOf formats o ↔
      (k ∈ (prereqPrepared o).keys ∧ k ∉ allowedOptionsOf formats o) := by
  unfold superfluousOptionsOf
  simp [List.mem_dedup, List.mem_filter]

/-- When the earlier checks pass and superfluous options exist,
`_prepare_options` fails with the combined message. -/
theorem prepare_options_superfluous_error (formats : List FormatClass)
    (o : Options)
    (hstream : o.use_stdout = true ∨ o.use_stderr = true)
    (hfmt : ∀ fmt, o.output_format = some fmt →
      (formats.find? (fun fc => fc.fmtName = fmt)).isSome)
    (hsup : superfluousOptionsOf formats o ≠ []) :
    _prepare_options formats o =
      .error (.valueError (superfluousMsg (superfluousOptionsOf formats o))) := by
  unfold _prepare_options
  have hcond : (!o.use_stdout && !o.use_stderr) = false := by
    rcases hstream with h | h <;> simp [h]
  rw [hcond]
  cases hofmt : o.output_format with
  | none => simp [hsup]
  | some fmt =>
    have hs := hfmt fmt hofmt
    cases hfind : formats.find? (fun fc => fc.fmtName = fmt) with
    | none => rw [hfind] at hs; simp at hs
    | some fc => simp [hfind, hsup]

/-- When every check passes, `_prepare_options` returns the prepared
options. -/
theorem prepare_options_ok (formats : List FormatClass) (o : Options)
    (hstream : o.use_stdout = true ∨ o.use_stderr = true)
    (hfmt : ∀ fmt, o.output_format = some fmt →
      (formats.find? (fun fc => fc.fmtName = fmt)).isSome)
    (hsup : superfluousOptionsOf formats o = []) :
    ∃ fcOpt, _prepare_options formats o = .ok (prereqPrepared o, fcOpt) := by
  unfold _prepare_options
  have hcond : (!o.use_stdout && !o.use_stderr) = false := by
    rcases hstream with h | h <;> simp [h]
  rw [hcond]
  cases hofmt : o.output_format with
  | none => exact ⟨none, by simp [hsup]⟩
  | some fmt =>
    have hs := hfmt fmt hofmt
    cases hfind : formats.find? (fun fc => fc.fmtName = fmt) with
    | none => rw [hfind] at hs; simp at hs
    | some fc => exact ⟨some fc, by simp [hfind, hsup]⟩

/-- C6: an option set containing names outside the union of the fixed set
and the chosen strategy's declared names fails with a single combined error
listing every offending name (the message is built from the full superfluous
set, sorted — the sorted list is a permutation of the offending names and is
pairwise ordered). -/
theorem superfluous_options_combined_error (formats : List FormatClass)
    (o : Options)
    (hstream : o.use_stdout = true ∨ o.use_stderr = true)
    (hfmt : ∀ fmt, o.output_format = some fmt →
      (formats.find? (fun fc => fc.fmtName = fmt)).isSome)
    (hsup : superfluousOptionsOf formats o ≠ []) :
    _prepare_options formats o =
      .error (.valueError (superfluousMsg (superfluousOptionsOf formats o))) ∧
    (∀ k, k ∈ superfluousOptionsOf formats o ↔
      (k ∈ (prereqPrepared o).keys ∧ k ∉ allowedOptionsOf formats o)) ∧
    (∀ k, k ∈ pySorted (superfluousOptionsOf formats o) ↔
      k ∈ superfluousOptionsOf formats o) ∧
    (pySorted (superfluousOptionsOf formats o)).Pairwise
      (fun a b => strLeB a b = true) := by
  refine ⟨prepare_options_superfluous_error formats o hstream hfmt hsup,
    fun k => superfluous_mem_iff formats o k,
    fun k => mem_pySorted k (superfluousOptionsOf formats o),
    pairwise_pySorted (superfluousOptionsOf formats o)⟩

/-- Without a prerequisite command, the fail-message key is never in the
allowed option set. -/
theorem fail_message_not_allowed (o : Options)
    (hcmd : o.prerequisite_check_command = []) :
    "prerequisite_check_fail_message" ∉ allowedOptionsOf _format_classes o := by
  unfold allowedOptionsOf
  intro hmem
  rcases List.mem_append.mp hmem with h12 | h3
  · rcases List.mem_append.mp h12 with h1 | h2
    · revert h1; decide
    · rw [hcmd] at h2; simp at h2
  · cases hofmt : o.output_format with
    | none => rw [hofmt] at h3; simp at h3
    | some fmt =>
      rw [hofmt] at h3
      have h3' : "prerequisite_check_fail_message" ∈
          (match _format_classes.find? (fun fc => fc.fmtName = fmt) with
           | none => ([] : List String)
           | some fc => fc.processedOptions) := h3
      cases hfind : _format_classes.find? (fun fc => fc.fmtName = fmt) with
      | none => rw [hfind] at h3'; simp at h3'
      | some fc =>
        rw [hfind] at h3'
        have hmemfc := List.mem_of_find?_eq_some hfind
        have hfc : fc = regexFormatClass ∨ fc = correctedFormatClass := by
          simpa [_format_classes] using hmemfc
        rcases hfc with rfl | rfl
        · revert h3'; decide
        · revert h3'; decide

/-- C10: supplying `prerequisite_check_fail_message` while
`prerequisite_check_command` is absent makes validation fail — the name is
among the superfluous options of the combined error; supplying a command
without a message raises no error and fills in the default message
"Prerequisite check failed.". -/
theorem prerequisite_fail_message_requires_command (o : Options)
    (hstream : o.use_stdout = true ∨ o.use_stderr = true)
    (hfmt : ∀ fmt, o.output_format = some fmt →
      (_format_classes.find? (fun fc => fc.fmtName = fmt)).isSome) :
    (o.prerequisite_check_command = [] →
      "prerequisite_check_fail_message" ∈ o.kwargKeys →
      "prerequisite_check_fail_message" ∈
          superfluousOptionsOf _format_classes o ∧
        _prepare_options _format_classes o = .error (.valueError
          (superfluousMsg (superfluousOptionsOf _format_classes o)))) ∧
    (o.prerequisite_check_command ≠ [] →
      "prerequisite_check_fail_message" ∉ o.kwargKeys →
      superfluousOptionsOf _format_classes o = [] →
      ∃ fcOpt, _prepare_options _format_classes o = .ok (prereqPrepared o, fcOpt) ∧
        (prereqPrepared o).prerequisite_check_fail_message =
          some "Prerequisite check failed.") := by
  constructor
  · intro hcmd hk
    have hprep : prereqPrepared o = o := by simp [prereqPrepared, hcmd]
    have hmem : "prerequisite_check_fail_message" ∈
        superfluousOptionsOf _format_classes o := by
      rw [superfluous_mem_iff]
      refine ⟨?_, fail_message_not_allowed o hcmd⟩
      rw [hprep]
      unfold Options.keys
      exact List.mem_append.mpr (Or.inr hk)
    refine ⟨hmem, prepare_options_superfluous_error _format_classes o hstream hfmt ?_⟩
    intro hnil
    rw [hnil] at hmem
    simp at hmem
  · intro hcmd hk hsup
    have hmsg : (prereqPrepared o).prerequisite_check_fail_message =
        some "Prerequisite check failed." := by
      simp [prereqPrepared, hcmd, hk]
    obtain ⟨fcOpt, hok⟩ := prepare_options_ok _format_classes o hstream hfmt hsup
    exact ⟨fcOpt, hok, hmsg⟩

/-- C9: the regex strategy produces one Issue per match, in match order,
and on the pattern `(?P<line>\\d+):(?P<severity>\\w+): (?P<message>.+)` with
severity map \x7b"error": MAJOR\x7d applied to
"3:error: bad thing\\n5:error: worse thing" it produces exactly two Issues in
that order with lines 3 and 5, severity MAJOR, and messages "bad thing" and
"worse thing". -/
theorem regex_strategy_match_order :
    (∀ (sevMap : List (String × RESULT_SEVERITY)) (msgOpt : Option String)
      (ms : List RegexMatch) (issues : List Issue),
      regexProcessOutput sevMap msgOpt ms = .ok issues →
      issues.length = ms.length ∧
      ∀ (j : Nat) (h1 : j < ms.length) (h2 : j < issues.length),
        matchToIssue sevMap msgOpt (ms.get ⟨j, h1⟩) =
          .ok (issues.get ⟨j, h2⟩)) ∧
    (regexProcessOutput [("error", RESULT_SEVERITY.MAJOR)] none
      (scanPattern "3:error: bad thing\n5:error: worse thing") =
      .ok [{ message := some "bad thing",
             severity := some RESULT_SEVERITY.MAJOR, line := some 3 },
           { message := some "worse thing",
             severity := some RESULT_SEVERITY.MAJOR, line := some 5 }]) := by
  constructor
  · intro sevMap msgOpt ms
    induction ms with
    | nil =>
      intro issues h
      unfold regexProcessOutput at h
      injection h with h
      subst h
      exact ⟨rfl, fun j h1 _ => absurd h1 (by simp)⟩
    | cons m ms ih =>
      intro issues h
      unfold regexProcessOutput at h
      cases hm : matchToIssue sevMap msgOpt m with
      | error e => rw [hm] at h; simp at h
      | ok i =>
        cases hr : regexProcessOutput sevMap msgOpt ms with
        | error e => rw [hm, hr] at h; simp at h
        | ok tl =>
          rw [hm, hr] at h
          simp at h
          subst h
          obtain ⟨hlen, hidx⟩ := ih tl hr
          refine ⟨by simp [hlen], ?_⟩
          intro j h1 h2
          cases j with
          | zero => exact hm
          | succ n =>
            simp only [List.get_cons_succ]
            exact hidx n (by simpa using h1) (by simpa using h2)
  · rfl

/-- Witness for C1 at a concrete linter and empty filesystem. -/
theorem config_file_scoped_lifecycle_witness :
    (runLinter fixtureOptions fixtureStagesConfig fixtureShell "f.py" []
      fixtureFS).2.files = [] ∧
    (runLinter fixtureOptions fixtureStagesConfig fixtureShell "f.py" []
      fixtureFS).1.2.created = [("/tmp/coala_0.conf", "<cfg>")] ∧
    (runLinter fixtureOptions fixtureStagesConfig fixtureShell "f.py" []
      fixtureFS).1.2.configPassed = [some "/tmp/coala_0.conf"] ∧
    "/tmp/coala_0.conf" ∉
      (runLinter fixtureOptions fixtureStagesConfig fixtureShell "f.py" []
        fixtureFS).2.files := by
  have h := config_file_scoped_lifecycle fixtureOptions fixtureStagesConfig
    fixtureShell "f.py" [] fixtureFS
  have h2 := h.2.2 "<cfg>" rfl
  exact ⟨h.1, h2.1, h2.2.1, h2.2.2.2 (by simp [fixtureFS])⟩

/-- Witness for C2 at a concrete class and options. -/
theorem result_stage_exactly_one_witness :
    _create_linter_check
      { className := "XLintBear", hasProcessOutput := true,
        processOutputCallable := true } fixtureOptions =
      .error (.valueError ("Found `process_output` already defined by class " ++
        pyRepr "XLintBear" ++ ", but " ++ pyRepr "regex" ++
        " output-format is specified.")) :=
  (result_stage_exactly_one
    { className := "XLintBear", hasProcessOutput := true,
      processOutputCallable := true } fixtureOptions).1 "regex" rfl rfl

/-- Witness for C3 at a concrete linter. -/
theorem noniterable_arguments_recoverable_witness :
    (runLinter fixtureOptions fixtureStagesNonIter fixtureShell "f.py" []
      fixtureFS).1.1 = .ok none ∧
    (runLinter fixtureOptions fixtureStagesNonIter fixtureShell "f.py" []
      fixtureFS).1.2.invocations = [] ∧
    (runLinter fixtureOptions fixtureStagesNonIter fixtureShell "f.py" []
      fixtureFS).1.2.outputsPassed = [] ∧
    (runLinter fixtureOptions fixtureStagesNonIter fixtureShell "f.py" []
      fixtureFS).1.2.errLog =
      ["The given arguments None are not iterable."] :=
  noniterable_arguments_recoverable fixtureOptions fixtureStagesNonIter
    fixtureShell "f.py" [] fixtureFS "None" rfl

/-- Witness for C5 at concrete options and oracles. -/
theorem check_prerequisites_cases_witness :
    check_prerequisites oPrereqFull (some "/usr/bin/xlint") false =
      .failMsg "tool broken" :=
  (check_prerequisites_cases oPrereqFull (some "/usr/bin/xlint") false).2.1
    "/usr/bin/xlint" "tool broken" rfl (by decide) rfl

/-- Witness for C6 at a concrete option dict. -/
theorem superfluous_options_combined_error_witness :
    _prepare_options _format_classes oSuperfluous =
      .error (.valueError
        "Invalid keyword arguments provided: \x27alpha\x27, \x27zeta\x27") ∧
    "zeta" ∈ superfluousOptionsOf _format_classes oSuperfluous := by
  have h := superfluous_options_combined_error _format_classes oSuperfluous
    (Or.inl rfl)
    (fun fmt hf => by
      have hreg : some "regex" = some fmt := hf
      injection hreg with hreg
      subst hreg
      decide)
    (by decide)
  exact ⟨h.1, (h.2.1 "zeta").mpr (by decide)⟩

/-- Witness for C8 at a concrete option dict. -/
theorem no_output_stream_selected_error_witness :
    _prepare_options _format_classes oNoStreams =
      .error (.valueError "No output streams provided at all.") :=
  no_output_stream_selected_error _format_classes oNoStreams rfl rfl

/-- Witness for C9 at the concrete example output. -/
theorem regex_strategy_match_order_witness :
    (scanPattern "3:error: bad thing\n5:error: worse thing").length = 2 :=
  ((regex_strategy_match_order.1 [("error", RESULT_SEVERITY.MAJOR)] none
    (scanPattern "3:error: bad thing\n5:error: worse thing")
    [{ message := some "bad thing", severity := some RESULT_SEVERITY.MAJOR,
       line := some 3 },
     { message := some "worse thing", severity := some RESULT_SEVERITY.MAJOR,
       line := some 5 }] rfl).1).symm

/-- Witness for C10 at concrete option dicts for both directions. -/
theorem prerequisite_fail_message_requires_command_witness :
    ("prerequisite_check_fail_message" ∈
        superfluousOptionsOf _format_classes oPrereqMsgOnly ∧
      _prepare_options _format_classes oPrereqMsgOnly = .error (.valueError
        (superfluousMsg (superfluousOptionsOf _format_classes oPrereqMsgOnly)))) ∧
    (prereqPrepared oPrereqCmdOnly).prerequisite_check_fail_message =
      some "Prerequisite check failed." := by
  have hfmtA : ∀ fmt, oPrereqMsgOnly.output_format = some fmt →
      (_format_classes.find? (fun fc => fc.fmtName = fmt)).isSome := by
    intro fmt hf
    have hreg : some "regex" = some fmt := hf
    injection hreg with hreg
    subst hreg
    decide
  have hfmtB : ∀ fmt, oPrereqCmdOnly.output_format = some fmt →
      (_format_classes.find? (fun fc => fc.fmtName = fmt)).isSome := by
    intro fmt hf
    have hreg : some "regex" = some fmt := hf
    injection hreg with hreg
    subst hreg
    decide
  refine ⟨(prerequisite_fail_message_requires_command oPrereqMsgOnly
    (Or.inl rfl) hfmtA).1 rfl (by decide), ?_⟩
  obtain ⟨fcOpt, hok, hmsg⟩ := (prerequisite_fail_message_requires_command
    oPrereqCmdOnly (Or.inl rfl) hfmtB).2 (by decide) (by decide) (by decide)
  exact hmsg
